import Mathlib

/-!
Shallow embedding of the batterdb core (Repository → Database → Stack),
translated from the Go sources under repository/ and the stack file.
Go maps are modelled as association lists with unique keys (map iteration
is determinised to list order, which is observationally adequate for the
reachable states used here, where identifiers and names are unique).
Wall-clock instants are modelled as naturals (nanoseconds since an epoch);
each call the Go code makes to time.Now() becomes an explicit argument.
-/

set_option autoImplicit false

namespace BatterDB

/-- A Go `any` value as produced by JSON/CBOR decoding in the handlers:
nil, bool, float64 (payload kept abstract as an integer id), string,
[]any, or map[string]any. The `null` constructor is the nil interface. -/
inductive GoValue where
  | null
  | boolean (b : Bool)
  | number (bits : Int)
  | str (s : String)
  | arr (elems : List GoValue)
  | obj (fields : List (String × GoValue))
deriving Repr

/-- A UUID, as in github.com/google/uuid: 16 bytes. -/
structure UUID where
  bytes : List Nat
deriving DecidableEq, Repr

/-- uuid.Nil, the zero UUID (the zero value that uuid.Parse leaves behind
when parsing fails). -/
def uuidNil : UUID := ⟨List.replicate 16 0⟩

/-- Value of a hex digit character, as in the xvalues table of
github.com/google/uuid (digits, lowercase and uppercase letters). -/
def xvalue (c : Char) : Option Nat :=
  if '0' ≤ c ∧ c ≤ '9' then some (c.toNat - '0'.toNat)
  else if 'a' ≤ c ∧ c ≤ 'f' then some (c.toNat - 'a'.toNat + 10)
  else if 'A' ≤ c ∧ c ≤ 'F' then some (c.toNat - 'A'.toNat + 10)
  else none

/-- xtob from github.com/google/uuid: two hex digit characters to a byte. -/
def xtob (c1 c2 : Char) : Option Nat :=
  match xvalue c1, xvalue c2 with
  | some b1, some b2 => some (b1 * 16 + b2)
  | _, _ => none

/-- Read the byte whose hex digits sit at positions i and i+1. -/
def xtobAt (cs : List Char) (i : Nat) : Option Nat :=
  match cs.get? i, cs.get? (i + 1) with
  | some c1, some c2 => xtob c1 c2
  | _, _ => none

/-- Collect the bytes at the given list of starting offsets; fails if any
pair is not two hex digits. -/
def collectBytes (cs : List Char) : List Nat → Option (List Nat)
  | [] => some []
  | i :: is =>
    match xtobAt cs i, collectBytes cs is with
    | some b, some bs => some (b :: bs)
    | _, _ => none

/-- The hyphenated 36-character form xxxxxxxx-xxxx-xxxx-xxxx-xxxxxxxxxxxx:
hyphens at offsets 8, 13, 18, 23 and byte pairs at the sixteen fixed
offsets, exactly as uuid.Parse checks them. -/
def parse36 (cs : List Char) : Option (List Nat) :=
  if cs.get? 8 = some '-' ∧ cs.get? 13 = some '-' ∧
      cs.get? 18 = some '-' ∧ cs.get? 23 = some '-' then
    collectBytes cs [0, 2, 4, 6, 9, 11, 14, 16, 19, 21, 24, 26, 28, 30, 32, 34]
  else none

/-- The 32-character form without hyphens. -/
def parse32 (cs : List Char) : Option (List Nat) :=
  collectBytes cs [0, 2, 4, 6, 8, 10, 12, 14, 16, 18, 20, 22, 24, 26, 28, 30]

/-- ASCII-adequate model of strings.EqualFold (the urn prefix compared is
pure ASCII). -/
def equalFold : List Char → List Char → Bool
  | [], [] => true
  | c :: cs, d :: ds => (c.toLower = d.toLower) && equalFold cs ds
  | _, _ => false

/-- uuid.Parse from github.com/google/uuid v1.6.0: accepts the canonical
36-character form, the urn:uuid: prefixed form (case-insensitive prefix),
a 38-character form whose first character is skipped (the braced form;
the surrounding characters themselves are not validated), and the plain
32-hex-digit form. Anything else is an error, modelled as none. -/
def uuidParse (s : String) : Option UUID :=
  let cs := s.data
  match cs.length with
  | 36 => (parse36 cs).map UUID.mk
  | 45 =>
    if equalFold (cs.take 9) ("urn:uuid:".data) then
      (parse36 (cs.drop 9)).map UUID.mk
    else none
  | 38 => (parse36 ((cs.drop 1).take 36)).map UUID.mk
  | 32 => (parse32 cs).map UUID.mk
  | _ => none

/-- Lowercase hex digit character for a value below 16. -/
def hexChar (n : Nat) : Char :=
  if n < 10 then Char.ofNat (48 + n) else Char.ofNat (87 + n)

/-- Two lowercase hex digits of a byte. -/
def byteHex (b : Nat) : List Char := [hexChar (b / 16 % 16), hexChar (b % 16)]

/-- UUID.String from github.com/google/uuid: canonical lowercase
hyphenated form. Well-formed UUIDs always hold exactly 16 bytes; other
lengths (unreachable from this development) render as the empty string. -/
def UUID.toGoString (u : UUID) : String :=
  match u.bytes with
  | [b0, b1, b2, b3, b4, b5, b6, b7, b8, b9, b10, b11, b12, b13, b14, b15] =>
    ⟨byteHex b0 ++ byteHex b1 ++ byteHex b2 ++ byteHex b3 ++ ['-'] ++
      byteHex b4 ++ byteHex b5 ++ ['-'] ++ byteHex b6 ++ byteHex b7 ++ ['-'] ++
      byteHex b8 ++ byteHex b9 ++ ['-'] ++ byteHex b10 ++ byteHex b11 ++
      byteHex b12 ++ byteHex b13 ++ byteHex b14 ++ byteHex b15⟩
  | _ => ""

/-- Stack from the repository package: three timestamps, an optional
back-reference to the owning Database (a Go pointer, observed here by the
identifier of the Database it points at; the nil pointer is none), a name,
the element data, and the UUID. The mutex has no observable pure content. -/
structure Stack where
  createdAt : Nat
  updatedAt : Nat
  readAt : Nat
  database : Option UUID
  name : String
  data : List GoValue
  id : UUID
deriving Repr

/-- Stack.setReadTime. -/
def Stack.setReadTime (s : Stack) (t : Nat) : Stack := { s with readAt := t }

/-- Stack.setUpdateTime: sets the read timestamp and then the update
timestamp to the same instant. -/
def Stack.setUpdateTime (s : Stack) (t : Nat) : Stack :=
  { s.setReadTime t with updatedAt := t }

/-- Stack.Push. The Go body calls time.Now() twice: once inside
setUpdateTime and once more for the final assignment to UpdatedAt, so the
two instants are separate arguments here (t1 ≤ t2 on a monotone clock). -/
def Stack.push (s : Stack) (element : GoValue) (t1 t2 : Nat) : Stack :=
  let s := s.setUpdateTime t1
  let s := { s with data := s.data ++ [element] }
  { s with updatedAt := t2 }

/-- Stack.Pop: on an empty stack refreshes the read timestamp and returns
nil; otherwise refreshes both timestamps, removes the last element and
returns it. -/
def Stack.pop (s : Stack) (t : Nat) : GoValue × Stack :=
  if s.data.length = 0 then (GoValue.null, s.setReadTime t)
  else
    let s := s.setUpdateTime t
    (s.data.getLastD GoValue.null, { s with data := s.data.dropLast })

/-- Stack.Size. -/
def Stack.size (s : Stack) : Nat := s.data.length

/-- Stack.Peek: refreshes the read timestamp; returns nil on an empty
stack, the last element otherwise, without removing it. -/
def Stack.peek (s : Stack) (t : Nat) : GoValue × Stack :=
  let s := s.setReadTime t
  (if s.data.length = 0 then GoValue.null else s.data.getLastD GoValue.null, s)

/-- Stack.Flush: refreshes both timestamps and discards the data. -/
def Stack.flush (s : Stack) (t : Nat) : Stack :=
  let s := s.setUpdateTime t
  { s with data := [] }

/-- The two error values of the repository package. -/
inductive RepoErr where
  | notFound
  | alreadyExists
deriving DecidableEq, Repr

/-- Database: a name-keyed map of Stacks plus name and UUID. The Go map
is an association list here, keys unique in reachable states. -/
structure Database where
  Stacks : List (String × Stack)
  name : String
  id : UUID
deriving Repr

/-- Repository: a name-keyed map of databases. -/
structure Repository where
  databases : List (String × Database)
deriving Repr

/-- Go map indexing m[name(k)]: the value stored under key k. -/
def byName {α : Type} (l : List (String × α)) (k : String) : Option α :=
  (l.find? (fun p => p.1 = k)).map (·.2)

/-- Database.Len. -/
def Database.len (db : Database) : Nat := db.Stacks.length

/-- The range-over-the-map scan of Database.Stack: find a stack whose ID
equals uid and, before returning it, write the owning database into its
back-reference field (stack.database = db in the Go body). -/
def scanStacksById (own : UUID) (uid : UUID) :
    List (String × Stack) → Option Stack × List (String × Stack)
  | [] => (none, [])
  | (n, st) :: rest =>
    if st.id = uid then
      (some { st with database := some own },
        (n, { st with database := some own }) :: rest)
    else
      ((scanStacksById own uid rest).1, (n, st) :: (scanStacksById own uid rest).2)

/-- Database.Stack: parse the argument as a UUID; when parsing fails, try
the name map first (early return on a hit) and otherwise fall through to
the ID scan with the zero UUID left behind by the failed parse; when
parsing succeeds, only the ID scan runs. Returns the found stack (none for
ErrNotFound) together with the possibly updated database. -/
def Database.stackLookup (db : Database) (idArg : String) :
    Option Stack × Database :=
  match uuidParse idArg with
  | some uid =>
    ((scanStacksById db.id uid db.Stacks).1,
      { db with Stacks := (scanStacksById db.id uid db.Stacks).2 })
  | none =>
    match byName db.Stacks idArg with
    | some st => (some st, db)
    | none =>
      ((scanStacksById db.id uuidNil db.Stacks).1,
        { db with Stacks := (scanStacksById db.id uuidNil db.Stacks).2 })

/-- Database.New: fails with ErrAlreadyExists when the name is taken,
otherwise registers a fresh stack whose three timestamps are the current
instant and whose back-reference is the owning database. The fresh UUID
drawn by uuid.New() is an explicit argument. -/
def Database.newStack (db : Database) (n : String) (fresh : UUID) (t : Nat) :
    Except RepoErr Stack × Database :=
  match byName db.Stacks n with
  | some _ => (Except.error RepoErr.alreadyExists, db)
  | none =>
    let st : Stack :=
      { id := fresh, name := n, database := some db.id,
        createdAt := t, updatedAt := t, readAt := t, data := [] }
    (Except.ok st, { db with Stacks := db.Stacks ++ [(n, st)] })

/-- Database.Drop: scan the map for a stack whose canonical ID string or
name equals the argument; delete the matched entry under its own name key,
or fail with ErrNotFound. -/
def Database.drop (db : Database) (idArg : String) :
    Except RepoErr Unit × Database :=
  match db.Stacks.find?
      (fun p => p.2.id.toGoString = idArg || p.2.name = idArg) with
  | some p =>
    (Except.ok (),
      { db with Stacks := db.Stacks.filter (fun q => q.1 ≠ p.2.name) })
  | none => (Except.error RepoErr.notFound, db)

/-- Repository.Len. -/
def Repository.len (r : Repository) : Nat := r.databases.length

/-- The range-over-the-map scan of Repository.Database: find a database
whose ID equals uid (no back-reference is written at this level). -/
def scanDatabasesById (uid : UUID) (l : List (String × Database)) :
    Option Database :=
  (l.find? (fun p => p.2.id = uid)).map (·.2)

/-- Repository.Database: same dual rule as Database.Stack one level up,
without the back-reference write. -/
def Repository.databaseLookup (r : Repository) (idArg : String) :
    Option Database :=
  match uuidParse idArg with
  | some uid => scanDatabasesById uid r.databases
  | none =>
    match byName r.databases idArg with
    | some db => some db
    | none => scanDatabasesById uuidNil r.databases

/-- Repository.New (the method): fails with ErrAlreadyExists when the
name is taken, otherwise registers a fresh empty database. -/
def Repository.newDatabase (r : Repository) (n : String) (fresh : UUID) :
    Except RepoErr Database × Repository :=
  match byName r.databases n with
  | some _ => (Except.error RepoErr.alreadyExists, r)
  | none =>
    let db : Database := { id := fresh, name := n, Stacks := [] }
    (Except.ok db, { r with databases := r.databases ++ [(n, db)] })

/-- Repository.Drop: canonical-ID-string or name match, as at the
database level. -/
def Repository.drop (r : Repository) (idArg : String) :
    Except RepoErr Unit × Repository :=
  match r.databases.find?
      (fun p => p.2.id.toGoString = idArg || p.2.name = idArg) with
  | some p =>
    (Except.ok (),
      { r with databases := r.databases.filter (fun q => q.1 ≠ p.2.name) })
  | none => (Except.error RepoErr.notFound, r)

/-!
Persistence. Repository.Persist and Repository.Load stream the Repository
through encoding/gob. The pieces below model the documented outcome of
that collaborator (the standard library, not part of this repository):
gob writes exported fields only; a value transmitted inside an interface
field must have its concrete type registered with gob.Register beforehand,
and encoding fails with a type-not-registered error otherwise; a nil
interface is transmitted as a zero-length type name and needs no
registration. A search of the whole repository finds no call to
gob.Register, so the registered set is empty.
-/

/-- The concrete dynamic type Go sees inside an `any` element. -/
inductive GoType where
  | goBool
  | goFloat64
  | goString
  | goSlice
  | goMap
deriving DecidableEq, Repr

/-- The dynamic type of a non-nil element; none for the nil interface. -/
def GoValue.goType : GoValue → Option GoType
  | GoValue.null => none
  | GoValue.boolean _ => some GoType.goBool
  | GoValue.number _ => some GoType.goFloat64
  | GoValue.str _ => some GoType.goString
  | GoValue.arr _ => some GoType.goSlice
  | GoValue.obj _ => some GoType.goMap

/-- The set of concrete types registered with gob.Register: the repository
never calls gob.Register, so it is empty. -/
def gobRegistered : List GoType := []

/-- Whether gob can transmit this element inside the `Data []any` field:
nil always, anything else only when its concrete type is registered. -/
def gobElemOK (v : GoValue) : Bool :=
  match v.goType with
  | none => true
  | some t => gobRegistered.contains t

/-- Whether every element of every stack of every database is
transmittable, i.e. whether gob encoding of the repository succeeds. -/
def Repository.gobEncodable (r : Repository) : Bool :=
  r.databases.all fun pd => pd.2.Stacks.all fun ps => ps.2.data.all gobElemOK

/-- The exported fields of a Stack, as they appear in a gob stream: the
unexported database back-reference and the mutex are not encoded. -/
structure StackDoc where
  createdAt : Nat
  updatedAt : Nat
  readAt : Nat
  name : String
  data : List GoValue
  id : UUID
deriving Repr

/-- The exported fields of a Database. -/
structure DatabaseDoc where
  Stacks : List (String × StackDoc)
  name : String
  id : UUID
deriving Repr

/-- The exported fields of a Repository: the decoded snapshot. -/
structure RepositoryDoc where
  databases : List (String × DatabaseDoc)
deriving Repr

/-- Projection of a Stack onto its gob-visible fields. -/
def Stack.doc (s : Stack) : StackDoc :=
  { createdAt := s.createdAt, updatedAt := s.updatedAt, readAt := s.readAt,
    name := s.name, data := s.data, id := s.id }

/-- Projection of a Database onto its gob-visible fields. -/
def Database.doc (db : Database) : DatabaseDoc :=
  { Stacks := db.Stacks.map (fun p => (p.1, p.2.doc)),
    name := db.name, id := db.id }

/-- Projection of a Repository onto its gob-visible fields. -/
def Repository.doc (r : Repository) : RepositoryDoc :=
  { databases := r.databases.map (fun p => (p.1, p.2.doc)) }

/-- The error class of a failed persistence round trip. -/
inductive PersistErr where
  | typeNotRegistered
  | deserialization
deriving DecidableEq, Repr

/-- Repository.Persist, at the level of the snapshot it writes: gob
encoding of the repository succeeds and yields the exported-field snapshot
iff every stored element has a registered (or nil) concrete type; with the
empty registered set it fails on the first non-nil element. -/
def Repository.persist (r : Repository) : Except PersistErr RepositoryDoc :=
  if r.gobEncodable then Except.ok r.doc
  else Except.error PersistErr.typeNotRegistered

/-- Reconstruction of a Stack from a decoded snapshot: the unexported
back-reference is not in the stream, so it comes back as the nil pointer. -/
def StackDoc.toStack (d : StackDoc) : Stack :=
  { createdAt := d.createdAt, updatedAt := d.updatedAt, readAt := d.readAt,
    database := none, name := d.name, data := d.data, id := d.id }

/-- Reconstruction of a Database from a decoded snapshot. -/
def DatabaseDoc.toDatabase (d : DatabaseDoc) : Database :=
  { Stacks := d.Stacks.map (fun p => (p.1, p.2.toStack)),
    name := d.name, id := d.id }

/-- Reconstruction of a Repository from a decoded snapshot. -/
def RepositoryDoc.toRepository (d : RepositoryDoc) : Repository :=
  { databases := d.databases.map (fun p => (p.1, p.2.toDatabase)) }

/-- What the file at the load path holds: a well-formed gob stream of a
snapshot, or bytes gob cannot decode. -/
inductive RepoFile where
  | valid (doc : RepositoryDoc)
  | corrupt
deriving Repr

/-- Repository.Load, with the file contents at the path made explicit
(none models the os.IsNotExist branch of os.Open): a missing file is not
an error and the receiver is left untouched; a corrupt file fails with the
decoder error; a valid stream replaces the contents with the snapshot. -/
def Repository.load (r : Repository) (file : Option RepoFile) :
    Except PersistErr Repository :=
  match file with
  | none => Except.ok r
  | some (RepoFile.valid doc) => Except.ok doc.toRepository
  | some RepoFile.corrupt => Except.error PersistErr.deserialization

/-- Iterated Stack.Push, one (element, first instant, second instant)
triple per call (Push reads the clock twice, see Stack.push). -/
def Stack.pushSeq (s : Stack) : List (GoValue × Nat × Nat) → Stack
  | [] => s
  | (e, t1, t2) :: rest => (s.push e t1 t2).pushSeq rest

/-- Iterated Stack.Pop, one instant per call; returns the popped values
in call order together with the final stack. -/
def Stack.popSeq (s : Stack) : List Nat → List GoValue × Stack
  | [] => ([], s)
  | t :: ts =>
    ((s.pop t).1 :: ((s.pop t).2.popSeq ts).1, ((s.pop t).2.popSeq ts).2)

/-!
Concrete objects used by the closed theorems below. The UUID byte lists
are sixteen bytes long; nameA and nameB are strings that are
syntactically valid canonical UUIDs and are used as stack names.
-/

def uuidA : UUID := ⟨[0, 0, 0, 0, 0, 0, 0, 0, 0, 0, 0, 0, 0, 0, 0, 10]⟩

def uuidB : UUID := ⟨[0, 0, 0, 0, 0, 0, 0, 0, 0, 0, 0, 0, 0, 0, 0, 11]⟩

def uuidC : UUID := ⟨[0, 0, 0, 0, 0, 0, 0, 0, 0, 0, 0, 0, 0, 0, 0, 12]⟩

def nameA : String := "00000000-0000-0000-0000-00000000000a"

def nameB : String := "00000000-0000-0000-0000-00000000000b"

/-- A freshly created stack (the shape Database.New builds at instant 0). -/
def freshStack (u : UUID) (n : String) (owner : UUID) : Stack :=
  { id := u, name := n, database := some owner,
    createdAt := 0, updatedAt := 0, readAt := 0, data := [] }

/-- An empty stack used by witnesses. -/
def c1EmptyStack : Stack := freshStack uuidA "w1" uuidC

/-- A stack that already holds one element before the pushes of C1. -/
def c1SeededStack : Stack :=
  { freshStack uuidA "seeded" uuidC with data := [GoValue.null] }

/-- The stack of the C2 execution, fresh at instant 0. -/
def c2Stack : Stack := freshStack uuidA "queue1" uuidC

/-- A stack whose name is the canonical string of a UUID it does not
have: its name is nameA but its identifier is uuidB. -/
def stC3 : Stack := freshStack uuidB nameA uuidC

/-- A database holding stC3 under its name. -/
def dbC3 : Database := { Stacks := [(nameA, stC3)], name := "db3", id := uuidC }

/-- Same shape for the delete/lookup divergence: named nameB, id uuidA. -/
def stC4 : Stack := freshStack uuidA nameB uuidC

/-- A database holding stC4 under its name. -/
def dbC4 : Database := { Stacks := [(nameB, stC4)], name := "db4", id := uuidC }

/-- The stack of the persistence failure: it holds the decoded JSON
object with one field, as pushed by the HTTP layer. -/
def c5Stack : Stack :=
  { freshStack uuidA "queue1" uuidC with
      data := [GoValue.obj [("id", GoValue.number 1)]] }

/-- The database of the persistence failure. -/
def c5Db : Database := { Stacks := [("queue1", c5Stack)], name := "orders", id := uuidC }

/-- The repository of the persistence failure. -/
def c5Repo : Repository := { databases := [("orders", c5Db)] }

/-- A database named abcd with no stacks, for the duplicate-create tests. -/
def c6Db : Database := { Stacks := [], name := "abcd", id := uuidA }

/-- A repository already holding c6Db under the name abcd. -/
def c6Repo : Repository := { databases := [("abcd", c6Db)] }

/-- A stack named dup inside c6DbWithStack. -/
def c6Stack : Stack := freshStack uuidB "dup" uuidA

/-- A database already holding a stack named dup. -/
def c6DbWithStack : Database :=
  { Stacks := [("dup", c6Stack)], name := "abcd", id := uuidA }

/-- An empty stack for the C7 witness. -/
def c7Stack : Stack := freshStack uuidB "w7" uuidC

/-- An empty stack for the C9 witness. -/
def c9Stack : Stack := freshStack uuidB "w9" uuidC

/-- A stack with a plain (non-UUID-shaped) name for the C10 witness. -/
def c10St : Stack := freshStack uuidB "plain" uuidC

/-- A database holding c10St under its name. -/
def c10Db : Database := { Stacks := [("plain", c10St)], name := "db10", id := uuidC }

/-!
Theorems. Helper lemmas first, then one theorem per claim (with witnesses
and counterexamples where required).
-/

/-- Push appends the element at the end of the data sequence. -/
theorem Stack.push_data (s : Stack) (e : GoValue) (t1 t2 : Nat) :
    (s.push e t1 t2).data = s.data ++ [e] := rfl

/-- Iterated pushes append the pushed elements in order. -/
theorem Stack.pushSeq_data (entries : List (GoValue × Nat × Nat)) :
    ∀ s : Stack, (s.pushSeq entries).data = s.data ++ entries.map (·.1) := by
  induction entries with
  | nil => intro s; simp [pushSeq]
  | cons p rest ih =>
    intro s
    obtain ⟨e, t1, t2⟩ := p
    simp [pushSeq, ih, push_data]

/-- popSeq distributes over concatenation of the instants list. -/
theorem Stack.popSeq_append (a b : List Nat) :
    ∀ s : Stack, s.popSeq (a ++ b) =
      ((s.popSeq a).1 ++ ((s.popSeq a).2.popSeq b).1,
        ((s.popSeq a).2.popSeq b).2) := by
  induction a with
  | nil => intro s; simp [popSeq]
  | cons t ts ih => intro s; simp [popSeq, ih]

/-- Pop on a stack whose data is l ++ [e] returns e and leaves l. -/
theorem Stack.pop_concat (s : Stack) (t : Nat) (l : List GoValue) (e : GoValue)
    (h : s.data = l ++ [e]) :
    (s.pop t).1 = e ∧ (s.pop t).2.data = l := by
  constructor <;>
    simp [pop, h, setUpdateTime, setReadTime, List.getLastD_concat,
      List.dropLast_concat]

/-- N pushes followed by N pops return the pushed elements reversed and
restore the original data sequence. -/
theorem Stack.popSeq_pushSeq (entries : List (GoValue × Nat × Nat)) :
    ∀ (s : Stack) (ts : List Nat), ts.length = entries.length →
      ((s.pushSeq entries).popSeq ts).1 = (entries.map (·.1)).reverse ∧
      ((s.pushSeq entries).popSeq ts).2.data = s.data := by
  induction entries with
  | nil =>
    intro s ts h
    have h0 : ts = [] := by simpa [List.length_eq_zero] using h
    subst h0
    simp [pushSeq, popSeq]
  | cons p rest ih =>
    intro s ts h
    obtain ⟨e, t1, t2⟩ := p
    have hne : ts ≠ [] := by
      intro hh
      rw [hh] at h
      simp at h
    have hts : ts.dropLast ++ [ts.getLast hne] = ts :=
      List.dropLast_append_getLast hne
    have hlen : ts.dropLast.length = rest.length := by
      simp at h ⊢
      omega
    obtain ⟨ih1, ih2⟩ := ih (s.push e t1 t2) ts.dropLast hlen
    have hdata :
        (((s.push e t1 t2).pushSeq rest).popSeq ts.dropLast).2.data =
          s.data ++ [e] := by
      rw [ih2, push_data]
    obtain ⟨hv, hd⟩ :=
      Stack.pop_concat _ (ts.getLast hne) s.data e hdata
    have key :
        (((s.push e t1 t2).pushSeq rest).popSeq
            (ts.dropLast ++ [ts.getLast hne])).1
          = (((e, t1, t2) :: rest).map (·.1)).reverse ∧
        (((s.push e t1 t2).pushSeq rest).popSeq
            (ts.dropLast ++ [ts.getLast hne])).2.data = s.data := by
      rw [Stack.popSeq_append]
      constructor
      · simp [popSeq, ih1, hv, List.reverse_cons]
      · simp [popSeq, hd]
    show (((s.push e t1 t2).pushSeq rest).popSeq ts).1 = _ ∧
      (((s.push e t1 t2).pushSeq rest).popSeq ts).2.data = s.data
    rw [← hts]
    exact key

/-- C1 counterexample: on a Stack that already holds one element, one
push followed by one pop returns the pushed element, but size() after the
pop is 1, not 0, so the size clause of the claim fails for that Stack. -/
theorem c1_counterexample :
    ((c1SeededStack.pushSeq [(GoValue.boolean true, 1, 2)]).popSeq [3]).1
        = [GoValue.boolean true] ∧
    ((c1SeededStack.pushSeq [(GoValue.boolean true, 1, 2)]).popSeq [3]).2.size
        ≠ 0 :=
  ⟨rfl, by decide⟩

/-- C1 (amended): for every Stack and every sequence of N pushed elements
followed by N pops with no other interleaved operations, the pops return
exactly the pushed elements in reverse push order, and size() after the
Nth pop equals the size the Stack had before the pushes (0 exactly when
the Stack started empty). -/
theorem c1_amended (s : Stack) (entries : List (GoValue × Nat × Nat))
    (ts : List Nat) (h : ts.length = entries.length) :
    ((s.pushSeq entries).popSeq ts).1 = (entries.map (·.1)).reverse ∧
    ((s.pushSeq entries).popSeq ts).2.size = s.size := by
  obtain ⟨h1, h2⟩ := Stack.popSeq_pushSeq entries s ts h
  exact ⟨h1, by simp [Stack.size, h2]⟩

/-- Witness for C1: two pushes then two pops on a concrete empty stack
return the two elements in reverse order and leave size 0. -/
theorem c1_amended_witness :
    ((c1EmptyStack.pushSeq
        [(GoValue.str "a", 1, 1), (GoValue.str "b", 2, 2)]).popSeq [3, 4]).1
      = [GoValue.str "b", GoValue.str "a"] ∧
    ((c1EmptyStack.pushSeq
        [(GoValue.str "a", 1, 1), (GoValue.str "b", 2, 2)]).popSeq [3, 4]).2.size
      = 0 :=
  let h := c1_amended c1EmptyStack
    [(GoValue.str "a", 1, 1), (GoValue.str "b", 2, 2)] [3, 4] rfl
  ⟨h.1.trans rfl, h.2.trans rfl⟩

/-- C2: the invariant fails on the code. Stack.Push calls time.Now()
twice; on the execution where the two calls return instants 1 and then 2
on a stack created at instant 0, the stack ends with read-at = 1 strictly
below updated-at = 2, so read-at ≥ updated-at does not hold immediately
after push. -/
theorem c2_push_violates_timestamp_invariant :
    (c2Stack.push (GoValue.str "x") 1 2).createdAt = 0 ∧
    (c2Stack.push (GoValue.str "x") 1 2).readAt = 1 ∧
    (c2Stack.push (GoValue.str "x") 1 2).updatedAt = 2 ∧
    ¬ ((c2Stack.push (GoValue.str "x") 1 2).updatedAt ≤
        (c2Stack.push (GoValue.str "x") 1 2).readAt) :=
  ⟨rfl, rfl, rfl, by decide⟩

/-- C7: pop on an empty Stack returns the nil no-value signal and only
refreshes read-at (data, size, updated-at and created-at unchanged); on a
non-empty Stack it removes and returns the top element and refreshes both
updated-at and read-at. -/
theorem c7_pop_contract (s : Stack) (t : Nat) :
    (s.data = [] → s.pop t = (GoValue.null, { s with readAt := t })) ∧
    (s.data ≠ [] →
      (s.pop t).1 = s.data.getLastD GoValue.null ∧
      (s.pop t).2.data = s.data.dropLast ∧
      (s.pop t).2.updatedAt = t ∧
      (s.pop t).2.readAt = t ∧
      (s.pop t).2.createdAt = s.createdAt) := by
  constructor
  · intro h
    simp [Stack.pop, h, Stack.setReadTime]
  · intro h
    have hlen : ¬ s.data.length = 0 := by
      simpa [List.length_eq_zero] using h
    simp [Stack.pop, hlen, Stack.setUpdateTime, Stack.setReadTime]

/-- Witness for C7: popping the concrete empty stack refreshes read-at
only and returns nil. -/
theorem c7_pop_contract_witness :
    c7Stack.pop 5 = (GoValue.null, { c7Stack with readAt := 5 }) :=
  (c7_pop_contract c7Stack 5).1 rfl

/-- C9: after pushing the nil element, pop (and peek) return exactly nil,
the same value pop (and peek) return on an empty Stack, even though the
nil element was genuinely stored (the size grew by one). -/
theorem c9_null_pop_peek (s e : Stack) (t1 t2 t3 t4 t5 t6 : Nat)
    (he : e.data = []) :
    ((s.push GoValue.null t1 t2).pop t3).1 = GoValue.null ∧
    (e.pop t4).1 = GoValue.null ∧
    ((s.push GoValue.null t1 t2).peek t5).1 = GoValue.null ∧
    (e.peek t6).1 = GoValue.null ∧
    (s.push GoValue.null t1 t2).size = s.size + 1 := by
  have hp : (s.push GoValue.null t1 t2).data = s.data ++ [GoValue.null] :=
    Stack.push_data s GoValue.null t1 t2
  refine ⟨?_, ?_, ?_, ?_, ?_⟩
  · simp [Stack.pop, hp, Stack.setUpdateTime, Stack.setReadTime,
      List.getLastD_concat]
  · simp [Stack.pop, he, Stack.setReadTime]
  · simp [Stack.peek, hp, Stack.setReadTime, List.getLastD_concat]
  · simp [Stack.peek, he, Stack.setReadTime]
  · simp [Stack.size, hp]

/-- Witness for C9: with concrete stacks and instants, pushing nil and
popping returns the same nil as popping the empty stack. -/
theorem c9_null_pop_peek_witness :
    ((c1SeededStack.push GoValue.null 1 2).pop 3).1 = GoValue.null ∧
    (c9Stack.pop 4).1 = GoValue.null ∧
    ((c1SeededStack.push GoValue.null 1 2).peek 5).1 = GoValue.null ∧
    (c9Stack.peek 6).1 = GoValue.null ∧
    (c1SeededStack.push GoValue.null 1 2).size = c1SeededStack.size + 1 :=
  c9_null_pop_peek c1SeededStack c9Stack 1 2 3 4 5 6 rfl

/-- The ID scan finds nothing exactly when no stored stack has the
identifier. -/
theorem scanStacksById_none_iff (own uid : UUID) (l : List (String × Stack)) :
    (scanStacksById own uid l).1 = none ↔ ∀ p ∈ l, p.2.id ≠ uid := by
  induction l with
  | nil => simp [scanStacksById]
  | cons p rest ih =>
    obtain ⟨n, st⟩ := p
    by_cases h : st.id = uid
    · simp [scanStacksById, h]
    · simp [scanStacksById, h, ih]

/-- Any stack the ID scan returns has its back-reference set to the
owner. -/
theorem scanStacksById_found_backref (own uid : UUID)
    (l : List (String × Stack)) :
    ∀ st, (scanStacksById own uid l).1 = some st → st.database = some own := by
  induction l with
  | nil => simp [scanStacksById]
  | cons p rest ih =>
    obtain ⟨n, st0⟩ := p
    by_cases h : st0.id = uid
    · intro st hst
      simp [scanStacksById, h] at hst
      rw [← hst]
    · simpa [scanStacksById, h] using ih

/-- The ID scan rewrites the stored list pointwise: every entry is either
unchanged, or matched the identifier and had exactly its back-reference
field set to the owner. -/
theorem scanStacksById_frame (own uid : UUID) (l : List (String × Stack)) :
    List.Forall₂ (fun p q => q = p ∨
        (p.2.id = uid ∧ q = (p.1, { p.2 with database := some own })))
      l (scanStacksById own uid l).2 := by
  induction l with
  | nil => simp [scanStacksById]
  | cons p rest ih =>
    obtain ⟨n, st0⟩ := p
    by_cases h : st0.id = uid
    · simp only [scanStacksById, if_pos h]
      exact List.Forall₂.cons (Or.inr ⟨h, rfl⟩)
        (List.forall₂_same.mpr (fun x _ => Or.inl rfl))
    · simp only [scanStacksById, if_neg h]
      exact List.Forall₂.cons (Or.inl rfl) ih

/-- The database-level ID scan finds nothing exactly when no stored
database has the identifier. -/
theorem scanDatabasesById_none_iff (uid : UUID) (l : List (String × Database)) :
    scanDatabasesById uid l = none ↔ ∀ p ∈ l, p.2.id ≠ uid := by
  simp [scanDatabasesById, List.find?_eq_none]

/-- C3 counterexample: nameA parses as a valid identifier and matches no
contained identifier; a Stack with exactly that name is stored; yet
lookup returns NotFound — the name path is not attempted after a
successful identifier parse. -/
theorem c3_counterexample :
    (uuidParse nameA).isSome = true ∧
    byName dbC3.Stacks nameA = some stC3 ∧
    (dbC3.stackLookup nameA).1 = none :=
  ⟨rfl, rfl, rfl⟩

/-- C3 (amended): lookup(s) first parses s as an identifier. If parsing
succeeds, only the identifier scan runs: the result is NotFound exactly
when no contained entry has that identifier, even when an entry named s
exists. If parsing fails, the name lookup runs and a hit is returned;
only when it also misses does the identifier scan run, with the zero
identifier the failed parse left behind. The same rule holds one level
up for Repository lookup of Databases. -/
theorem c3_amended :
    (∀ (db : Database) (s : String) (uid : UUID), uuidParse s = some uid →
      ((db.stackLookup s).1 = none ↔ ∀ p ∈ db.Stacks, p.2.id ≠ uid)) ∧
    (∀ (db : Database) (s : String) (st : Stack), uuidParse s = none →
      byName db.Stacks s = some st → (db.stackLookup s).1 = some st) ∧
    (∀ (db : Database) (s : String), uuidParse s = none →
      byName db.Stacks s = none →
      ((db.stackLookup s).1 = none ↔ ∀ p ∈ db.Stacks, p.2.id ≠ uuidNil)) ∧
    (∀ (r : Repository) (s : String) (uid : UUID), uuidParse s = some uid →
      (r.databaseLookup s = none ↔ ∀ p ∈ r.databases, p.2.id ≠ uid)) ∧
    (∀ (r : Repository) (s : String) (d : Database), uuidParse s = none →
      byName r.databases s = some d → r.databaseLookup s = some d) ∧
    (∀ (r : Repository) (s : String), uuidParse s = none →
      byName r.databases s = none →
      (r.databaseLookup s = none ↔ ∀ p ∈ r.databases, p.2.id ≠ uuidNil)) := by
  refine ⟨?_, ?_, ?_, ?_, ?_, ?_⟩
  · intro db s uid h
    simp [Database.stackLookup, h, scanStacksById_none_iff]
  · intro db s st h hb
    simp [Database.stackLookup, h, hb]
  · intro db s h hb
    simp [Database.stackLookup, h, hb, scanStacksById_none_iff]
  · intro r s uid h
    simp [Repository.databaseLookup, h, scanDatabasesById_none_iff]
  · intro r s d h hb
    simp [Repository.databaseLookup, h, hb]
  · intro r s h hb
    simp [Repository.databaseLookup, h, hb, scanDatabasesById_none_iff]

/-- Witness for C3 (amended), at the counterexample input: lookup of the
identifier-shaped name is NotFound exactly when no stored identifier
matches, which holds here. -/
theorem c3_amended_witness :
    (dbC3.stackLookup nameA).1 = none ↔ ∀ p ∈ dbC3.Stacks, p.2.id ≠ uuidA :=
  c3_amended.1 dbC3 nameA uuidA rfl

/-- C10: resolving by name leaves everything unchanged — the looked-up
stack is returned exactly as stored and the database is untouched; when
the input parses as an identifier, the returned stack has the owning
database written into its back-reference, and the stored stacks are
pointwise unchanged except that an identifier match has exactly its
back-reference field set. So the read mutates state only on the
identifier path. -/
theorem c10_lookup_backref_effect (db : Database) (s : String) :
    (uuidParse s = none → ∀ st, byName db.Stacks s = some st →
      db.stackLookup s = (some st, db)) ∧
    (∀ uid, uuidParse s = some uid →
      (∀ st, (db.stackLookup s).1 = some st → st.database = some db.id) ∧
      List.Forall₂ (fun p q => q = p ∨ (p.2.id = uid ∧
          q = (p.1, { p.2 with database := some db.id })))
        db.Stacks (db.stackLookup s).2.Stacks) := by
  constructor
  · intro h st hb
    simp [Database.stackLookup, h, hb]
  · intro uid h
    constructor
    · intro st hst
      refine scanStacksById_found_backref db.id uid db.Stacks st ?_
      simpa [Database.stackLookup, h] using hst
    · simpa [Database.stackLookup, h] using
        scanStacksById_frame db.id uid db.Stacks

/-- Witness for C10: at a concrete database, a name-path lookup returns
the stored stack and the unchanged database. -/
theorem c10_lookup_backref_effect_witness :
    c10Db.stackLookup "plain" = (some c10St, c10Db) :=
  (c10_lookup_backref_effect c10Db "plain").1 rfl c10St rfl

/-- Database.Drop succeeds exactly when some stored stack has s as its
canonical identifier string or as its name. -/
theorem dbDrop_ok_iff (db : Database) (s : String) :
    (db.drop s).1 = Except.ok () ↔
      ∃ p ∈ db.Stacks, p.2.id.toGoString = s ∨ p.2.name = s := by
  constructor
  · intro h
    cases hf : db.Stacks.find?
        (fun p => p.2.id.toGoString = s || p.2.name = s) with
    | none => simp [Database.drop, hf] at h
    | some p =>
      refine ⟨p, List.mem_of_find?_eq_some hf, ?_⟩
      simpa using List.find?_some hf
  · rintro ⟨p, hp, hor⟩
    have hs : (db.Stacks.find?
        (fun p => p.2.id.toGoString = s || p.2.name = s)).isSome :=
      List.find?_isSome.mpr ⟨p, hp, by simpa using hor⟩
    cases hf : db.Stacks.find?
        (fun p => p.2.id.toGoString = s || p.2.name = s) with
    | none => rw [hf] at hs; simp at hs
    | some q => simp [Database.drop, hf]

/-- A failed Database.Drop leaves the database unchanged. -/
theorem dbDrop_err_frame (db : Database) (s : String)
    (h : (db.drop s).1 = Except.error RepoErr.notFound) :
    (db.drop s).2 = db := by
  cases hf : db.Stacks.find?
      (fun p => p.2.id.toGoString = s || p.2.name = s) with
  | none => simp [Database.drop, hf]
  | some q => simp [Database.drop, hf] at h

/-- Repository.Drop succeeds exactly when some stored database has s as
its canonical identifier string or as its name. -/
theorem repoDrop_ok_iff (r : Repository) (s : String) :
    (r.drop s).1 = Except.ok () ↔
      ∃ p ∈ r.databases, p.2.id.toGoString = s ∨ p.2.name = s := by
  constructor
  · intro h
    cases hf : r.databases.find?
        (fun p => p.2.id.toGoString = s || p.2.name = s) with
    | none => simp [Repository.drop, hf] at h
    | some p =>
      refine ⟨p, List.mem_of_find?_eq_some hf, ?_⟩
      simpa using List.find?_some hf
  · rintro ⟨p, hp, hor⟩
    have hs : (r.databases.find?
        (fun p => p.2.id.toGoString = s || p.2.name = s)).isSome :=
      List.find?_isSome.mpr ⟨p, hp, by simpa using hor⟩
    cases hf : r.databases.find?
        (fun p => p.2.id.toGoString = s || p.2.name = s) with
    | none => rw [hf] at hs; simp at hs
    | some q => simp [Repository.drop, hf]

/-- A failed Repository.Drop leaves the repository unchanged. -/
theorem repoDrop_err_frame (r : Repository) (s : String)
    (h : (r.drop s).1 = Except.error RepoErr.notFound) :
    (r.drop s).2 = r := by
  cases hf : r.databases.find?
      (fun p => p.2.id.toGoString = s || p.2.name = s) with
  | none => simp [Repository.drop, hf]
  | some q => simp [Repository.drop, hf] at h

/-- A successful Database.Drop removes the matched entry: given the map
invariant that every entry is stored under its own stack name (which
Database.New establishes and Drop preserves), when the scan matches entry
p, drop succeeds, p is no longer stored, the name key of p no longer
resolves, every entry stored under a different key survives, and nothing
new appears. -/
theorem dbDrop_removes (db : Database) (s : String) (p : String × Stack)
    (hkeys : ∀ q ∈ db.Stacks, q.1 = q.2.name)
    (hf : db.Stacks.find? (fun q => q.2.id.toGoString = s || q.2.name = s)
        = some p) :
    (db.drop s).1 = Except.ok () ∧
    p ∉ (db.drop s).2.Stacks ∧
    byName (db.drop s).2.Stacks p.2.name = none ∧
    (∀ q ∈ db.Stacks, q.1 ≠ p.1 → q ∈ (db.drop s).2.Stacks) ∧
    (∀ q ∈ (db.drop s).2.Stacks, q ∈ db.Stacks ∧ q.1 ≠ p.1) := by
  have hp : p ∈ db.Stacks := List.mem_of_find?_eq_some hf
  have hpn : p.1 = p.2.name := hkeys p hp
  have hres : (db.drop s).2.Stacks
      = db.Stacks.filter (fun q => q.1 ≠ p.2.name) := by
    simp [Database.drop, hf]
  refine ⟨by simp [Database.drop, hf], ?_, ?_, ?_, ?_⟩
  · rw [hres]
    intro hmem
    have h2 := (List.mem_filter.mp hmem).2
    simp [← hpn] at h2
  · rw [hres]
    simp only [byName, Option.map_eq_none', List.find?_eq_none]
    intro x hx
    have h2 := (List.mem_filter.mp hx).2
    simpa using h2
  · intro q hq hne
    rw [hres]
    refine List.mem_filter.mpr ⟨hq, ?_⟩
    rw [← hpn]
    simpa using hne
  · intro q hq
    rw [hres] at hq
    obtain ⟨hmem, hfil⟩ := List.mem_filter.mp hq
    refine ⟨hmem, ?_⟩
    rw [hpn]
    simpa using hfil

/-- A successful Repository.Drop removes the matched entry, under the
same keyed-by-own-name invariant one level up. -/
theorem repoDrop_removes (r : Repository) (s : String) (p : String × Database)
    (hkeys : ∀ q ∈ r.databases, q.1 = q.2.name)
    (hf : r.databases.find? (fun q => q.2.id.toGoString = s || q.2.name = s)
        = some p) :
    (r.drop s).1 = Except.ok () ∧
    p ∉ (r.drop s).2.databases ∧
    byName (r.drop s).2.databases p.2.name = none ∧
    (∀ q ∈ r.databases, q.1 ≠ p.1 → q ∈ (r.drop s).2.databases) ∧
    (∀ q ∈ (r.drop s).2.databases, q ∈ r.databases ∧ q.1 ≠ p.1) := by
  have hp : p ∈ r.databases := List.mem_of_find?_eq_some hf
  have hpn : p.1 = p.2.name := hkeys p hp
  have hres : (r.drop s).2.databases
      = r.databases.filter (fun q => q.1 ≠ p.2.name) := by
    simp [Repository.drop, hf]
  refine ⟨by simp [Repository.drop, hf], ?_, ?_, ?_, ?_⟩
  · rw [hres]
    intro hmem
    have h2 := (List.mem_filter.mp hmem).2
    simp [← hpn] at h2
  · rw [hres]
    simp only [byName, Option.map_eq_none', List.find?_eq_none]
    intro x hx
    have h2 := (List.mem_filter.mp hx).2
    simpa using h2
  · intro q hq hne
    rw [hres]
    refine List.mem_filter.mpr ⟨hq, ?_⟩
    rw [← hpn]
    simpa using hne
  · intro q hq
    rw [hres] at hq
    obtain ⟨hmem, hfil⟩ := List.mem_filter.mp hq
    refine ⟨hmem, ?_⟩
    rw [hpn]
    simpa using hfil

/-- C4 counterexample: dbC4 stores a stack named nameB (a string that is
also a syntactically valid identifier) whose identifier is uuidA. Delete
of nameB succeeds (name match), while lookup of nameB fails (only the
identifier scan runs after the successful parse), refuting that delete
resolves by the same rule as lookup and succeeds iff lookup succeeds. -/
theorem c4_counterexample :
    (dbC4.drop nameB).1 = Except.ok () ∧
    (dbC4.stackLookup nameB).1 = none :=
  ⟨rfl, rfl⟩

/-- C4 (amended): delete(s) resolves by its own rule, not by the rule of
lookup(s): it succeeds exactly when some stored entry has s as its
canonical identifier string or as its exact name, removing the matched
entry, and otherwise fails with NotFound leaving the collection
unchanged. (This differs from lookup both ways: an entry whose name is a
valid identifier string is deletable by name but not found by lookup, and
a non-canonical spelling of an identifier is found by lookup but not
deletable.) Holds at both the Database and the Repository level. -/
theorem c4_amended :
    (∀ (db : Database) (s : String),
      ((db.drop s).1 = Except.ok () ↔
        ∃ p ∈ db.Stacks, p.2.id.toGoString = s ∨ p.2.name = s)) ∧
    (∀ (db : Database) (s : String),
      (db.drop s).1 = Except.error RepoErr.notFound → (db.drop s).2 = db) ∧
    (∀ (db : Database) (s : String) (p : String × Stack),
      (∀ q ∈ db.Stacks, q.1 = q.2.name) →
      db.Stacks.find? (fun q => q.2.id.toGoString = s || q.2.name = s)
          = some p →
      (db.drop s).1 = Except.ok () ∧
      p ∉ (db.drop s).2.Stacks ∧
      byName (db.drop s).2.Stacks p.2.name = none ∧
      (∀ q ∈ db.Stacks, q.1 ≠ p.1 → q ∈ (db.drop s).2.Stacks) ∧
      (∀ q ∈ (db.drop s).2.Stacks, q ∈ db.Stacks ∧ q.1 ≠ p.1)) ∧
    (∀ (r : Repository) (s : String),
      ((r.drop s).1 = Except.ok () ↔
        ∃ p ∈ r.databases, p.2.id.toGoString = s ∨ p.2.name = s)) ∧
    (∀ (r : Repository) (s : String),
      (r.drop s).1 = Except.error RepoErr.notFound → (r.drop s).2 = r) ∧
    (∀ (r : Repository) (s : String) (p : String × Database),
      (∀ q ∈ r.databases, q.1 = q.2.name) →
      r.databases.find? (fun q => q.2.id.toGoString = s || q.2.name = s)
          = some p →
      (r.drop s).1 = Except.ok () ∧
      p ∉ (r.drop s).2.databases ∧
      byName (r.drop s).2.databases p.2.name = none ∧
      (∀ q ∈ r.databases, q.1 ≠ p.1 → q ∈ (r.drop s).2.databases) ∧
      (∀ q ∈ (r.drop s).2.databases, q ∈ r.databases ∧ q.1 ≠ p.1)) :=
  ⟨dbDrop_ok_iff, dbDrop_err_frame, dbDrop_removes,
    repoDrop_ok_iff, repoDrop_err_frame, repoDrop_removes⟩

/-- Witness for C4 (amended): on the concrete database, dropping nameB
succeeds and removes the matched entry (it is gone, its name key no
longer resolves, and nothing else changed), while dropping a name that
matches nothing fails and leaves the database unchanged. -/
theorem c4_amended_witness :
    ((dbC4.drop nameB).1 = Except.ok () ∧
      (nameB, stC4) ∉ (dbC4.drop nameB).2.Stacks ∧
      byName (dbC4.drop nameB).2.Stacks (nameB, stC4).2.name = none ∧
      (∀ q ∈ dbC4.Stacks, q.1 ≠ (nameB, stC4).1 →
        q ∈ (dbC4.drop nameB).2.Stacks) ∧
      (∀ q ∈ (dbC4.drop nameB).2.Stacks,
        q ∈ dbC4.Stacks ∧ q.1 ≠ (nameB, stC4).1)) ∧
    (dbC4.drop "nope").2 = dbC4 :=
  ⟨c4_amended.2.2.1 dbC4 nameB (nameB, stC4)
      (by
        intro q hq
        simp only [dbC4, List.mem_singleton] at hq
        rw [hq]
        rfl)
      rfl,
    c4_amended.2.1 dbC4 "nope" rfl⟩

/-- C5: the round trip fails on the code. Persisting the concrete
repository whose single stack holds one JSON-object element fails with
the gob type-not-registered error (the repository registers no concrete
type with gob.Register), so save produces no valid file to load. -/
theorem c5_persist_object_fails :
    c5Repo.persist = Except.error PersistErr.typeNotRegistered := rfl

/-- C6: creating a Database or a Stack under a name already present at
that level fails with AlreadyExists and returns the receiver unchanged,
so the existing entry and the count are exactly as before the call. -/
theorem c6_create_duplicate_fails_unchanged :
    (∀ (r : Repository) (n : String) (u : UUID) (db0 : Database),
      byName r.databases n = some db0 →
      r.newDatabase n u = (Except.error RepoErr.alreadyExists, r)) ∧
    (∀ (db : Database) (n : String) (u : UUID) (t : Nat) (st0 : Stack),
      byName db.Stacks n = some st0 →
      db.newStack n u t = (Except.error RepoErr.alreadyExists, db)) := by
  constructor
  · intro r n u db0 h
    simp [Repository.newDatabase, h]
  · intro db n u t st0 h
    simp [Database.newStack, h]

/-- Witness for C6: duplicate creation on the concrete repository and
database fails with AlreadyExists and returns them unchanged. -/
theorem c6_create_duplicate_witness :
    c6Repo.newDatabase "abcd" uuidB
        = (Except.error RepoErr.alreadyExists, c6Repo) ∧
    c6DbWithStack.newStack "dup" uuidC 9
        = (Except.error RepoErr.alreadyExists, c6DbWithStack) :=
  ⟨c6_create_duplicate_fails_unchanged.1 c6Repo "abcd" uuidB c6Db rfl,
    c6_create_duplicate_fails_unchanged.2 c6DbWithStack "dup" uuidC 9
      c6Stack rfl⟩

/-- C8: loading from a path at which no file exists is not an error, and
the in-memory Repository is unchanged by the call. -/
theorem c8_load_missing_file (r : Repository) :
    r.load none = Except.ok r := rfl

end BatterDB
